import Mathlib

/-!
Verification of the solana-agent-bot fee/referral/swap-ledger core.

Python floats are modelled as exact rationals (`ℚ`): all constants involved
(0.005, 0.20, 0.55, 0.25, 300.0) and all test inputs are exactly
representable, and every claim is stated up to tolerances far larger than
any double-rounding error, so the rational model is faithful for the
properties at stake.  MongoDB collections are modelled as Lean lists of
structures; `find_one` is `List.find?`, `update_one` updates the first
matching element, aggregation pipelines are filter/map/sum compositions.
UTC timestamps are natural numbers, UTC days (midnight-truncated dates)
are integers counting days.
-/

namespace SolanaAgentBot

/-! ### Fee configuration (solana_agent_api/models.py) -/

def PLATFORM_FEE : ℚ := 0.005

def JUPITER_SPLIT : ℚ := 0.20

def PLATFORM_SPLIT : ℚ := 0.55

def REFERRER_SPLIT : ℚ := 0.25

def REFERRAL_CAP : ℚ := 300.0

/-- Result record of `calculate_fee_split` (the returned dict). -/
structure FeeSplit where
  gross_fee : ℚ
  jupiter_amount : ℚ
  platform_amount : ℚ
  referrer_amount : ℚ
deriving Repr, DecidableEq

/-- Embedding of `calculate_fee_split` (models.py, lines 33-62). -/
def calculate_fee_split (volume_usd : ℚ) (has_referrer referrer_capped : Bool) : FeeSplit :=
  let gross_fee := volume_usd * PLATFORM_FEE
  let jupiter_amount := gross_fee * JUPITER_SPLIT
  let remaining := gross_fee * (1 - JUPITER_SPLIT)
  if has_referrer && !referrer_capped then
    { gross_fee := gross_fee
      jupiter_amount := jupiter_amount
      platform_amount := remaining * PLATFORM_SPLIT
      referrer_amount := remaining * REFERRER_SPLIT }
  else
    { gross_fee := gross_fee
      jupiter_amount := jupiter_amount
      platform_amount := remaining * (PLATFORM_SPLIT + REFERRER_SPLIT)
      referrer_amount := 0 }

/-! ### Data model (MongoDB documents, models.py / database.py)

Only the fields the verified operations read or write are modelled. -/

/-- Row of the `users` collection (`user_document`). -/
structure UserRow where
  privy_id : String
  wallet_address : Option String
  referral_code : String
  referred_by : Option String
  volume_30d : ℚ
  last_trade_at : Option ℕ
deriving Repr, DecidableEq

/-- Row of the `referrals` collection (`referral_document`). -/
structure ReferralRow where
  referrer_privy_id : String
  referee_privy_id : String
  total_earned : ℚ
  cap : ℚ
  capped : Bool
  capped_at : Option ℕ
deriving Repr, DecidableEq

/-- Row of the `swaps` collection (`swap_document`). -/
structure SwapRow where
  tx_signature : String
  user_privy_id : String
  wallet_address : String
  input_token : String
  input_amount : ℚ
  output_token : String
  output_amount : ℚ
  volume_usd : ℚ
  fee_amount_usd : ℚ
  jupiter_amount : ℚ
  platform_amount : ℚ
  referrer_privy_id : Option String
  referrer_amount : ℚ
  created_at : ℕ
deriving Repr, DecidableEq

/-- Payout status: `pending | sent | failed` (payout_document). -/
inductive PayoutStatus
  | pending
  | sent
  | failed
deriving Repr, DecidableEq

instance : BEq PayoutStatus := ⟨fun a b => decide (a = b)⟩

instance : LawfulBEq PayoutStatus where
  rfl := by intro a; simp [BEq.beq]
  eq_of_beq := by intro a b h; simpa [BEq.beq] using h

/-- Row of the `payouts` collection (`payout_document`). -/
structure PayoutRow where
  privy_id : String
  wallet_address : String
  amount_usd : ℚ
  amount_agent : ℚ
  status : PayoutStatus
deriving Repr, DecidableEq

/-- Row of the `daily_volumes` collection (`daily_volume_document`);
`date` is a UTC day truncated to midnight, counted in whole days. -/
structure DailyVolumeRow where
  user_privy_id : String
  date : ℤ
  volume_usd : ℚ
deriving Repr, DecidableEq

/-- The document store: one list per collection. -/
structure DB where
  users : List UserRow
  referrals : List ReferralRow
  swaps : List SwapRow
  daily_volumes : List DailyVolumeRow
  payouts : List PayoutRow
deriving Repr, DecidableEq

/-- Mongo `update_one`: apply `f` to the first element satisfying `p`. -/
def updateFirst (p : α → Bool) (f : α → α) : List α → List α
  | [] => []
  | x :: xs => if p x then f x :: xs else x :: updateFirst p f xs

/-! ### Referral ledger (database.py `update_referral_earnings`, lines 306-345) -/

/-- Predicate matching the referral row for a referrer/referee pair. -/
def referralMatch (referrer_privy_id referee_privy_id : String) (r : ReferralRow) : Bool :=
  r.referrer_privy_id == referrer_privy_id && r.referee_privy_id == referee_privy_id

/-- Embedding of `DatabaseService.update_referral_earnings`: returns
`(True, updated db)` on a successful credit, `(False, db)` if the referral
is missing or already capped.  A credit reaching `REFERRAL_CAP` clamps
`total_earned` at the cap, sets `capped`, and stamps `capped_at = now`. -/
def update_referral_earnings (db : DB) (referrer_privy_id referee_privy_id : String)
    (amount : ℚ) (now : ℕ) : Bool × DB :=
  (db.referrals.find? (referralMatch referrer_privy_id referee_privy_id)).elim
    (false, db)
    (fun referral =>
      if referral.capped then (false, db)
      else
        let new_total := referral.total_earned + amount
        let capped : Bool := if REFERRAL_CAP ≤ new_total then true else false
        (true,
          { db with
            referrals := updateFirst (referralMatch referrer_privy_id referee_privy_id)
              (fun r =>
                { r with
                  total_earned := min new_total REFERRAL_CAP
                  capped := capped
                  capped_at := if capped then some now else r.capped_at })
              db.referrals }))

/-! ### Daily volume (database.py `update_daily_volume`, lines 433-458) -/

/-- Predicate matching the daily-volume row of one user and day. -/
def dailyVolumeMatch (user_privy_id : String) (d : ℤ) (r : DailyVolumeRow) : Bool :=
  r.user_privy_id == user_privy_id && r.date == d

/-- Rolling 30-day volume: the aggregation `$match date >= today - 30d`
followed by `$sum volume_usd`, over one user's daily-volume rows. -/
def volume30dSum (dvs : List DailyVolumeRow) (user_privy_id : String) (today : ℤ) : ℚ :=
  ((dvs.filter (fun r => r.user_privy_id == user_privy_id && decide (today - 30 ≤ r.date))).map
    (fun r => r.volume_usd)).sum

/-- The `$inc ... upsert=True` step of `update_daily_volume`: increment the
`(user, today)` row if present, otherwise insert a fresh one. -/
def newDailyVolumes (dvs : List DailyVolumeRow) (user_privy_id : String)
    (volume_usd : ℚ) (today : ℤ) : List DailyVolumeRow :=
  if dvs.any (dailyVolumeMatch user_privy_id today) then
    updateFirst (dailyVolumeMatch user_privy_id today)
      (fun r => { r with volume_usd := r.volume_usd + volume_usd }) dvs
  else
    dvs ++ [{ user_privy_id := user_privy_id, date := today, volume_usd := volume_usd }]

/-- Embedding of `DatabaseService.update_daily_volume`: upsert-increment the
`(user, today)` daily-volume row, then recompute the 30-day windowed sum and
overwrite the user's denormalized `volume_30d`. -/
def update_daily_volume (db : DB) (user_privy_id : String) (volume_usd : ℚ) (today : ℤ) : DB :=
  let dvs := newDailyVolumes db.daily_volumes user_privy_id volume_usd today
  { db with
    daily_volumes := dvs
    users := updateFirst (fun u => u.privy_id == user_privy_id)
      (fun u => { u with volume_30d := volume30dSum dvs user_privy_id today }) db.users }

/-- Total volume stored for one user and one day (with the unique index on
`(user, day)` there is at most one such row; summing makes the statement
robust to arbitrary stores). -/
def dvTotal (dvs : List DailyVolumeRow) (user_privy_id : String) (d : ℤ) : ℚ :=
  ((dvs.filter (dailyVolumeMatch user_privy_id d)).map (fun r => r.volume_usd)).sum

/-! ### Swap recording (database.py `record_swap`, lines 351-431) -/

/-- Outcome of `record_swap`: the Python function returns `None` both for a
duplicate signature and for an unknown wallet (distinguished only by the log
line), and the inserted swap document on success. -/
inductive RecordResult
  | duplicate
  | unknownWallet
  | recorded (swap : SwapRow)
deriving Repr, DecidableEq

/-- Referrer state resolved by `record_swap` steps 3: the active referrer id
(if any) and the `referrer_capped` flag passed to the fee split. -/
def referrerState (db : DB) (user : UserRow) : Option String × Bool :=
  user.referred_by.elim (none, true)
    (fun rid =>
      (db.referrals.find? (referralMatch rid user.privy_id)).elim (none, true)
        (fun referral => if referral.capped then (none, true) else (some rid, false)))

/-- The swap document built by `swap_document` (models.py, lines 196-224). -/
def swapRowOf (user : UserRow) (tx_signature wallet_address input_token : String)
    (input_amount : ℚ) (output_token : String) (output_amount volume_usd : ℚ)
    (referrer_privy_id : Option String) (fee_split : FeeSplit) (now : ℕ) : SwapRow :=
  { tx_signature := tx_signature
    user_privy_id := user.privy_id
    wallet_address := wallet_address
    input_token := input_token
    input_amount := input_amount
    output_token := output_token
    output_amount := output_amount
    volume_usd := volume_usd
    fee_amount_usd := fee_split.gross_fee
    jupiter_amount := fee_split.jupiter_amount
    platform_amount := fee_split.platform_amount
    referrer_privy_id := referrer_privy_id
    referrer_amount := fee_split.referrer_amount
    created_at := now }

/-- Steps 3-8 of `record_swap`, after the duplicate and unknown-wallet guards
have passed: resolve the referrer state, compute the fee split, insert the
swap row, credit the referral when an active referrer earned a positive
amount, update `last_trade_at`, and update the daily volume. -/
def recordSwapInsert (db : DB) (user : UserRow)
    (tx_signature wallet_address input_token : String) (input_amount : ℚ)
    (output_token : String) (output_amount volume_usd : ℚ)
    (now : ℕ) (today : ℤ) : RecordResult × DB :=
  let rs := referrerState db user
  let fee_split := calculate_fee_split volume_usd rs.1.isSome rs.2
  let swap := swapRowOf user tx_signature wallet_address input_token input_amount
    output_token output_amount volume_usd rs.1 fee_split now
  let db1 := { db with swaps := db.swaps ++ [swap] }
  let db2 := rs.1.elim db1
    (fun rid =>
      if 0 < fee_split.referrer_amount then
        (update_referral_earnings db1 rid user.privy_id fee_split.referrer_amount now).2
      else db1)
  let db3 := { db2 with
    users := updateFirst (fun u => u.privy_id == user.privy_id)
      (fun u => { u with last_trade_at := some now }) db2.users }
  (.recorded swap, update_daily_volume db3 user.privy_id volume_usd today)

/-- Embedding of `DatabaseService.record_swap`: duplicate-signature guard,
wallet resolution, then the insertion steps. -/
def record_swap (db : DB) (tx_signature wallet_address input_token : String)
    (input_amount : ℚ) (output_token : String) (output_amount volume_usd : ℚ)
    (now : ℕ) (today : ℤ) : RecordResult × DB :=
  if db.swaps.any (fun s => s.tx_signature == tx_signature) then
    (.duplicate, db)
  else
    (db.users.find? (fun u => u.wallet_address == some wallet_address)).elim
      (.unknownWallet, db)
      (fun user =>
        recordSwapInsert db user tx_signature wallet_address input_token input_amount
          output_token output_amount volume_usd now today)

/-! ### Pending payouts (database.py `get_pending_payouts`, lines 464-501) -/

/-- Entry of the list returned by `get_pending_payouts`. -/
structure PendingPayout where
  privy_id : String
  wallet_address : Option String
  pending_amount : ℚ
deriving Repr, DecidableEq

/-- Aggregate of `amount_usd` over a referrer's payouts with status `sent`
(the `paid_pipeline`). -/
def paidSum (db : DB) (privy_id : String) : ℚ :=
  ((db.payouts.filter (fun p => p.privy_id == privy_id && p.status == PayoutStatus.sent)).map
    (fun p => p.amount_usd)).sum

/-- Aggregate of `referrer_amount` over a referrer's swap rows with
`referrer_amount > 0` — the `$match`/`$group`/`$sum` pipeline of
`get_pending_payouts`. -/
def positiveReferrerSum (db : DB) (rid : String) : ℚ :=
  ((db.swaps.filter (fun s =>
      s.referrer_privy_id == some rid && decide (0 < s.referrer_amount))).map
    (fun s => s.referrer_amount)).sum

/-- Distinct referrer ids produced by the grouping stage: referrers of swap
rows with a non-null `referrer_privy_id` and positive `referrer_amount`. -/
def pendingReferrerIds (db : DB) : List String :=
  (db.swaps.filterMap (fun s =>
    if 0 < s.referrer_amount then s.referrer_privy_id else none)).dedup

/-- Embedding of `DatabaseService.get_pending_payouts`: for each grouped
referrer with positive unpaid swap total, subtract the sent payouts and keep
the referrer when the difference is positive and the user document exists. -/
def get_pending_payouts (db : DB) : List PendingPayout :=
  ((pendingReferrerIds db).filter (fun rid => decide (0 < positiveReferrerSum db rid))).filterMap
    (fun rid =>
      let pending := positiveReferrerSum db rid - paidSum db rid
      if 0 < pending then
        (db.users.find? (fun u => u.privy_id == rid)).map
          (fun u => { privy_id := rid, wallet_address := u.wallet_address,
                      pending_amount := pending })
      else none)

/-- Pending amount as claim C4 words it: the sum of `referrer_amount` over
ALL swap rows carrying this referrer (no positivity filter), minus the sent
payouts.  Kept separate from the code embedding above to compare the two. -/
def claimWordedPending (db : DB) (rid : String) : ℚ :=
  ((db.swaps.filter (fun s => s.referrer_privy_id == some rid)).map
    (fun s => s.referrer_amount)).sum - paidSum db rid

/-! ### Concrete stores used by witnesses and counterexamples -/

/-- Concrete referral row one dollar below the cap, used by the C3 witness. -/
def referralNearCap : ReferralRow :=
  { referrer_privy_id := "R", referee_privy_id := "E",
    total_earned := 299, cap := 300, capped := false, capped_at := none }

/-- Concrete store holding exactly `referralNearCap`, used by the C3 witness. -/
def dbNearCap : DB :=
  { users := [], referrals := [referralNearCap], swaps := [], daily_volumes := [], payouts := [] }

/-- Concrete empty store, used by several witnesses. -/
def dbEmpty : DB :=
  { users := [], referrals := [], swaps := [], daily_volumes := [], payouts := [] }

/-- Witness store for C6: one user whose wallet is linked, no referrals. -/
def dbOneUser : DB :=
  { users := [{ privy_id := "U", wallet_address := some "w", referral_code := "UC",
                referred_by := none, volume_30d := 0, last_trade_at := none }],
    referrals := [], swaps := [], daily_volumes := [], payouts := [] }

/-- Referrer user of the C4/C5 scenarios. -/
def userR : UserRow :=
  { privy_id := "R", wallet_address := some "wR", referral_code := "RC",
    referred_by := none, volume_30d := 0, last_trade_at := none }

/-- Referee user of the C4/C5 scenarios, referred by `userR`. -/
def userU : UserRow :=
  { privy_id := "U", wallet_address := some "wU", referral_code := "UC",
    referred_by := some "R", volume_30d := 0, last_trade_at := none }

/-- Fresh referral relationship between `userR` and `userU`. -/
def referralRU : ReferralRow :=
  { referrer_privy_id := "R", referee_privy_id := "U",
    total_earned := 0, cap := 300, capped := false, capped_at := none }

/-- Store with a referrer, a referee and their fresh referral. -/
def dbReferred : DB :=
  { users := [userR, userU], referrals := [referralRU], swaps := [],
    daily_volumes := [], payouts := [] }

/-- C4 scenario: a $5000 swap (referrer earns $5) followed by a $-3000
reversal swap (referrer row carries $-3), both recorded through
`record_swap`. -/
def dbC4 : DB :=
  (record_swap (record_swap dbReferred "s1" "wU" "SOL" 1 "USDC" 1 5000 10 100).2
    "s2" "wU" "SOL" 1 "USDC" 1 (-3000) 11 100).2

/-- C5 scenario: two $200000 swaps (referrer earns $200 each), whose second
credit crosses the $300 referral cap, both recorded through `record_swap`. -/
def dbC5 : DB :=
  (record_swap (record_swap dbReferred "t1" "wU" "SOL" 1 "USDC" 1 200000 10 100).2
    "t2" "wU" "SOL" 1 "USDC" 1 200000 11 100).2

/-- The referee user after the first C4 swap. -/
def userUmidC4 : UserRow :=
  { privy_id := "U", wallet_address := some "wU", referral_code := "UC",
    referred_by := some "R", volume_30d := 5000, last_trade_at := some 10 }

/-- The referee user after the first C5 swap. -/
def userUmidC5 : UserRow :=
  { privy_id := "U", wallet_address := some "wU", referral_code := "UC",
    referred_by := some "R", volume_30d := 200000, last_trade_at := some 10 }

/-- Intermediate state of the C4 scenario after the first ($5000) swap. -/
def dbC4mid : DB :=
  { users := [userR, userUmidC4],
    referrals := [{ referrer_privy_id := "R", referee_privy_id := "U", total_earned := 5,
                    cap := 300, capped := false, capped_at := none }],
    swaps := [{ tx_signature := "s1", user_privy_id := "U", wallet_address := "wU",
                input_token := "SOL", input_amount := 1, output_token := "USDC",
                output_amount := 1, volume_usd := 5000, fee_amount_usd := 25,
                jupiter_amount := 5, platform_amount := 11, referrer_privy_id := some "R",
                referrer_amount := 5, created_at := 10 }],
    daily_volumes := [{ user_privy_id := "U", date := 100, volume_usd := 5000 }],
    payouts := [] }

/-- Final state of the C4 scenario, spelled out. -/
def dbC4lit : DB :=
  { users := [userR,
      { privy_id := "U", wallet_address := some "wU", referral_code := "UC",
        referred_by := some "R", volume_30d := 2000, last_trade_at := some 11 }],
    referrals := [{ referrer_privy_id := "R", referee_privy_id := "U", total_earned := 5,
                    cap := 300, capped := false, capped_at := none }],
    swaps := [{ tx_signature := "s1", user_privy_id := "U", wallet_address := "wU",
                input_token := "SOL", input_amount := 1, output_token := "USDC",
                output_amount := 1, volume_usd := 5000, fee_amount_usd := 25,
                jupiter_amount := 5, platform_amount := 11, referrer_privy_id := some "R",
                referrer_amount := 5, created_at := 10 },
              { tx_signature := "s2", user_privy_id := "U", wallet_address := "wU",
                input_token := "SOL", input_amount := 1, output_token := "USDC",
                output_amount := 1, volume_usd := -3000, fee_amount_usd := -15,
                jupiter_amount := -3, platform_amount := -33/5,
                referrer_privy_id := some "R", referrer_amount := -3, created_at := 11 }],
    daily_volumes := [{ user_privy_id := "U", date := 100, volume_usd := 2000 }],
    payouts := [] }

/-- Intermediate state of the C5 scenario after the first ($200000) swap. -/
def dbC5mid : DB :=
  { users := [userR, userUmidC5],
    referrals := [{ referrer_privy_id := "R", referee_privy_id := "U", total_earned := 200,
                    cap := 300, capped := false, capped_at := none }],
    swaps := [{ tx_signature := "t1", user_privy_id := "U", wallet_address := "wU",
                input_token := "SOL", input_amount := 1, output_token := "USDC",
                output_amount := 1, volume_usd := 200000, fee_amount_usd := 1000,
                jupiter_amount := 200, platform_amount := 440,
                referrer_privy_id := some "R", referrer_amount := 200, created_at := 10 }],
    daily_volumes := [{ user_privy_id := "U", date := 100, volume_usd := 200000 }],
    payouts := [] }

/-- Final state of the C5 scenario, spelled out: the referral is clamped at
the cap while the two swap rows keep their pre-clamp $200 shares. -/
def dbC5lit : DB :=
  { users := [userR,
      { privy_id := "U", wallet_address := some "wU", referral_code := "UC",
        referred_by := some "R", volume_30d := 400000, last_trade_at := some 11 }],
    referrals := [{ referrer_privy_id := "R", referee_privy_id := "U", total_earned := 300,
                    cap := 300, capped := true, capped_at := some 11 }],
    swaps := [{ tx_signature := "t1", user_privy_id := "U", wallet_address := "wU",
                input_token := "SOL", input_amount := 1, output_token := "USDC",
                output_amount := 1, volume_usd := 200000, fee_amount_usd := 1000,
                jupiter_amount := 200, platform_amount := 440,
                referrer_privy_id := some "R", referrer_amount := 200, created_at := 10 },
              { tx_signature := "t2", user_privy_id := "U", wallet_address := "wU",
                input_token := "SOL", input_amount := 1, output_token := "USDC",
                output_amount := 1, volume_usd := 200000, fee_amount_usd := 1000,
                jupiter_amount := 200, platform_amount := 440,
                referrer_privy_id := some "R", referrer_amount := 200, created_at := 11 }],
    daily_volumes := [{ user_privy_id := "U", date := 100, volume_usd := 400000 }],
    payouts := [] }

/-- Witness store for C8's stale-day scenario: one user and one daily-volume
row on day 0, to be aged out by an update on day 31. -/
def dbStaleVolume : DB :=
  { users := [{ privy_id := "U", wallet_address := some "w", referral_code := "UC",
                referred_by := none, volume_30d := 10, last_trade_at := none }],
    referrals := [], swaps := [],
    daily_volumes := [{ user_privy_id := "U", date := 0, volume_usd := 10 }], payouts := [] }

/-! ### Anchor instruction discriminators (fee claim service)

The module implementing the protocol encoder (`fee_claim_service.py`) is not
part of the provided sources; only its test suite is.  The derivation below
is modelled from the spec and pinned by the tests: the discriminator of an
instruction is the first 8 bytes of SHA-256 of the ASCII string
`"global:" + name`.  SHA-256 (FIPS 180-4) is implemented in full on byte
lists so the constants are actually computed, not assumed. -/

/-- Right rotation of a 32-bit word. -/
def rotr32 (n x : ℕ) : ℕ := ((x >>> n) ||| (x <<< (32 - n))) % 2 ^ 32

/-- SHA-256 choice function. -/
def shaCh (x y z : ℕ) : ℕ := (x &&& y) ^^^ ((x ^^^ 4294967295) &&& z)

/-- SHA-256 majority function. -/
def shaMaj (x y z : ℕ) : ℕ := (x &&& y) ^^^ (x &&& z) ^^^ (y &&& z)

/-- SHA-256 big sigma-0. -/
def shaS0 (x : ℕ) : ℕ := rotr32 2 x ^^^ rotr32 13 x ^^^ rotr32 22 x

/-- SHA-256 big sigma-1. -/
def shaS1 (x : ℕ) : ℕ := rotr32 6 x ^^^ rotr32 11 x ^^^ rotr32 25 x

/-- SHA-256 small sigma-0. -/
def shaLS0 (x : ℕ) : ℕ := rotr32 7 x ^^^ rotr32 18 x ^^^ (x >>> 3)

/-- SHA-256 small sigma-1. -/
def shaLS1 (x : ℕ) : ℕ := rotr32 17 x ^^^ rotr32 19 x ^^^ (x >>> 10)

/-- SHA-256 round constants. -/
def shaK : List ℕ :=
  [1116352408, 1899447441, 3049323471, 3921009573, 961987163, 1508970993,
   2453635748, 2870763221, 3624381080, 310598401, 607225278, 1426881987,
   1925078388, 2162078206, 2614888103, 3248222580, 3835390401, 4022224774,
   264347078, 604807628, 770255983, 1249150122, 1555081692, 1996064986,
   2554220882, 2821834349, 2952996808, 3210313671, 3336571891, 3584528711,
   113926993, 338241895, 666307205, 773529912, 1294757372, 1396182291,
   1695183700, 1986661051, 2177026350, 2456956037, 2730485921, 2820302411,
   3259730800, 3345764771, 3516065817, 3600352804, 4094571909, 275423344,
   430227734, 506948616, 659060556, 883997877, 958139571, 1322822218,
   1537002063, 1747873779, 1955562222, 2024104815, 2227730452, 2361852424,
   2428436474, 2756734187, 3204031479, 3329325298]

/-- SHA-256 initial hash state. -/
def shaH0 : List ℕ :=
  [1779033703, 3144134277, 1013904242, 2773480762,
   1359893119, 2600822924, 528734635, 1541459225]

/-- SHA-256 message padding: `128`, zeros to 56 mod 64, 64-bit big-endian
bit length. -/
def shaPad (msg : List ℕ) : List ℕ :=
  msg ++ [128] ++ List.replicate ((64 - (msg.length + 9) % 64) % 64) 0 ++
    (List.range 8).map (fun i => 8 * msg.length / 256 ^ (7 - i) % 256)

/-- Split into 64-byte blocks (fuel-based structural recursion so that the
kernel can evaluate it). -/
def shaBlocksAux : ℕ → List ℕ → List (List ℕ)
  | 0, _ => []
  | _, [] => []
  | fuel + 1, a :: rest => ((a :: rest).take 64) :: shaBlocksAux fuel ((a :: rest).drop 64)

/-- Split a padded message into 64-byte blocks. -/
def shaBlocks (l : List ℕ) : List (List ℕ) := shaBlocksAux l.length l

/-- First 16 schedule words of a block, big-endian. -/
def shaWords (block : List ℕ) : List ℕ :=
  (List.range 16).map (fun i =>
    block.getD (4 * i) 0 * 16777216 + block.getD (4 * i + 1) 0 * 65536 +
    block.getD (4 * i + 2) 0 * 256 + block.getD (4 * i + 3) 0)

/-- Extend the 16 schedule words to 64. -/
def shaSchedule (w : List ℕ) : List ℕ :=
  (List.range 48).foldl (fun ws _ =>
    ws ++ [(shaLS1 (ws.getD (ws.length - 2) 0) + ws.getD (ws.length - 7) 0 +
            shaLS0 (ws.getD (ws.length - 15) 0) + ws.getD (ws.length - 16) 0) % 2 ^ 32]) w

/-- SHA-256 compression of one block into the running hash state. -/
def shaCompress (h : List ℕ) (block : List ℕ) : List ℕ :=
  let w := shaSchedule (shaWords block)
  let s := (List.range 64).foldl
    (fun s t =>
      match s with
      | (a, b, c, d, e, f, g, hh) =>
        let T1 := (hh + shaS1 e + shaCh e f g + shaK.getD t 0 + w.getD t 0) % 2 ^ 32
        let T2 := (shaS0 a + shaMaj a b c) % 2 ^ 32
        ((T1 + T2) % 2 ^ 32, a, b, c, (d + T1) % 2 ^ 32, e, f, g))
    (h.getD 0 0, h.getD 1 0, h.getD 2 0, h.getD 3 0,
     h.getD 4 0, h.getD 5 0, h.getD 6 0, h.getD 7 0)
  match s with
  | (a, b, c, d, e, f, g, hh) =>
    [(h.getD 0 0 + a) % 2 ^ 32, (h.getD 1 0 + b) % 2 ^ 32, (h.getD 2 0 + c) % 2 ^ 32,
     (h.getD 3 0 + d) % 2 ^ 32, (h.getD 4 0 + e) % 2 ^ 32, (h.getD 5 0 + f) % 2 ^ 32,
     (h.getD 6 0 + g) % 2 ^ 32, (h.getD 7 0 + hh) % 2 ^ 32]

/-- SHA-256 of a byte list, as a list of 32 bytes. -/
def sha256 (msg : List ℕ) : List ℕ :=
  ((shaBlocks (shaPad msg)).foldl shaCompress shaH0).foldr
    (fun wd acc =>
      [wd / 16777216 % 256, wd / 65536 % 256, wd / 256 % 256, wd % 256] ++ acc) []

/-- Byte encoding of a string; equals its UTF-8 encoding for the ASCII
instruction names used here. -/
def asciiBytes (s : String) : List ℕ := s.data.map Char.toNat

/-- Modelled from the spec: `fee_claim_service.py` is absent from the
provided sources, so `get_anchor_discriminator` is taken from the spec's
(and the test suite's) definition — the first 8 bytes of SHA-256 of the
literal string `"global:" + name`. -/
def get_anchor_discriminator (name : String) : List ℕ :=
  (sha256 (asciiBytes ("global:" ++ name))).take 8

/-- Modelled from the spec: the `claim` instruction discriminator. -/
def CLAIM_DISCRIMINATOR : List ℕ := get_anchor_discriminator "claim"

/-- Modelled from the spec: the `claim_v2` instruction discriminator. -/
def CLAIM_V2_DISCRIMINATOR : List ℕ := get_anchor_discriminator "claim_v2"

/-! ### Price service (price_service.py) -/

/-- Cache TTL for token prices, in seconds. -/
def CACHE_TTL_SECONDS : ℚ := 60

/-- In-memory price cache `_price_cache : mint -> (price, timestamp)`.  The
Python dict is modelled as an association list: insertion conses, lookup
takes the first (most recent) entry. -/
abbrev PriceCache := List (String × ℚ × ℚ)

/-- Lookup of `_price_cache[mint]`. -/
def cacheLookup (c : PriceCache) (mint : String) : Option (ℚ × ℚ) :=
  (c.find? (fun e => e.1 == mint)).map (fun e => e.2)

/-- Result of one `get_token_price` call: the returned price, whether an
outbound fetch was performed, and the cache afterwards. -/
structure PriceResult where
  price : Option ℚ
  fetched : Bool
  cache : PriceCache
deriving Repr, DecidableEq

/-- The fetch phase of `get_token_price`: `fetch` is the outcome of the
Birdeye call as the code observes it — `some p` when the response is 200
with `success`, `data` and a non-null `value`, and `none` on every other
path (HTTP error, timeout, exception, missing value), all of which fall
through to `return None`.  A successful fetch is cached at time `now`. -/
def fetchPrice (c : PriceCache) (now : ℚ) (fetch : Option ℚ) (mint : String) : PriceResult :=
  fetch.elim { price := none, fetched := true, cache := c }
    (fun p => { price := some p, fetched := true, cache := (mint, p, now) :: c })

/-- Embedding of `get_token_price` (price_service.py, lines 147-197):
invalid mints short-circuit to `None`; a cache entry younger than
`CACHE_TTL_SECONDS` is returned without fetching; otherwise the price is
fetched (and cached on success). -/
def get_token_price (c : PriceCache) (now : ℚ) (fetch : Option ℚ) (mint : String) :
    PriceResult :=
  if mint == "" || mint == "unknown" then { price := none, fetched := false, cache := c }
  else
    (cacheLookup c mint).elim (fetchPrice c now fetch mint)
      (fun e =>
        if now - e.2 < CACHE_TTL_SECONDS then { price := some e.1, fetched := false, cache := c }
        else fetchPrice c now fetch mint)

/-- The cached price for `mint` that is still within the TTL at `now`, if
any. -/
def freshCached (c : PriceCache) (now : ℚ) (mint : String) : Option ℚ :=
  (cacheLookup c mint).elim none
    (fun e => if now - e.2 < CACHE_TTL_SECONDS then some e.1 else none)

/-! ### Theorems -/

/-- C1: the claim as stated is false: the three split components sum to
`0.84 * gross_fee`, not `gross_fee`, so at `volume_usd = 1000` (no referrer)
the relative deviation is 16%, far beyond the claimed 1e-9 relative
tolerance.  The same failure occurs in the referrer branch. -/
theorem C1_additivity_counterexample :
    ¬ (|(calculate_fee_split 1000 false false).jupiter_amount +
        (calculate_fee_split 1000 false false).platform_amount +
        (calculate_fee_split 1000 false false).referrer_amount -
        (calculate_fee_split 1000 false false).gross_fee| ≤
       (1e-9 : ℚ) * |(calculate_fee_split 1000 false false).gross_fee|) ∧
    ¬ (|(calculate_fee_split 1000 true false).jupiter_amount +
        (calculate_fee_split 1000 true false).platform_amount +
        (calculate_fee_split 1000 true false).referrer_amount -
        (calculate_fee_split 1000 true false).gross_fee| ≤
       (1e-9 : ℚ) * |(calculate_fee_split 1000 true false).gross_fee|) := by
  have h1 : calculate_fee_split 1000 false false =
      { gross_fee := 5, jupiter_amount := 1, platform_amount := 16/5, referrer_amount := 0 } := by
    norm_num [calculate_fee_split, PLATFORM_FEE, JUPITER_SPLIT, PLATFORM_SPLIT, REFERRER_SPLIT]
  have h2 : calculate_fee_split 1000 true false =
      { gross_fee := 5, jupiter_amount := 1, platform_amount := 11/5, referrer_amount := 1 } := by
    norm_num [calculate_fee_split, PLATFORM_FEE, JUPITER_SPLIT, PLATFORM_SPLIT, REFERRER_SPLIT]
  rw [h1, h2]
  simp only
  constructor
  · rw [show (1 + 16/5 + 0 - 5 : ℚ) = -(4/5) by norm_num, abs_neg,
      abs_of_nonneg (by norm_num : (0:ℚ) ≤ 4/5), abs_of_nonneg (by norm_num : (0:ℚ) ≤ 5)]
    norm_num
  · rw [show (1 + 11/5 + 1 - 5 : ℚ) = -(4/5) by norm_num, abs_neg,
      abs_of_nonneg (by norm_num : (0:ℚ) ≤ 4/5), abs_of_nonneg (by norm_num : (0:ℚ) ≤ 5)]
    norm_num

/-- C1 (amended): for every volume and referrer state the three split
components sum exactly to `0.84 * gross_fee` — i.e. to
`(JUPITER_SPLIT + (1 - JUPITER_SPLIT) * (PLATFORM_SPLIT + REFERRER_SPLIT))`
times the gross fee — and 16% of the gross fee is left unallocated. -/
theorem C1_amended_split_sums_to_84_percent_of_gross
    (volume_usd : ℚ) (has_referrer referrer_capped : Bool) :
    (calculate_fee_split volume_usd has_referrer referrer_capped).jupiter_amount +
    (calculate_fee_split volume_usd has_referrer referrer_capped).platform_amount +
    (calculate_fee_split volume_usd has_referrer referrer_capped).referrer_amount =
    (0.84 : ℚ) * (calculate_fee_split volume_usd has_referrer referrer_capped).gross_fee := by
  cases has_referrer <;> cases referrer_capped <;>
    simp only [calculate_fee_split, Bool.and_self, Bool.not_false, Bool.not_true,
      Bool.and_true, Bool.and_false, if_true, if_false, Bool.false_and, Bool.true_and,
      ite_true, ite_false] <;>
    norm_num [PLATFORM_FEE, JUPITER_SPLIT, PLATFORM_SPLIT, REFERRER_SPLIT] <;> ring

/-- C2: at volume $1000 with no referrer the split is gross 5.00, jupiter
1.00, platform 3.20, referrer 0.00; with an active uncapped referrer it is
jupiter 1.00, platform 2.20, referrer 1.00. -/
theorem C2_fee_split_1000_scenarios :
    calculate_fee_split 1000 false false =
      { gross_fee := 5, jupiter_amount := 1, platform_amount := 3.20, referrer_amount := 0 } ∧
    (calculate_fee_split 1000 true false).jupiter_amount = 1 ∧
    (calculate_fee_split 1000 true false).platform_amount = 2.20 ∧
    (calculate_fee_split 1000 true false).referrer_amount = 1 := by
  refine ⟨?_, ?_, ?_, ?_⟩ <;>
    norm_num [calculate_fee_split, PLATFORM_FEE, JUPITER_SPLIT, PLATFORM_SPLIT, REFERRER_SPLIT]

/-! ### Shared helper lemmas -/

/-- `List.filterMap` on a cons, phrased with `Option.elim` (match-free form
of `List.filterMap_cons`). -/
theorem filterMap_cons_elim (f : α → Option β) (a : α) (l : List α) :
    List.filterMap f (a :: l) =
      (f a).elim (List.filterMap f l) (fun b => b :: List.filterMap f l) := by
  rcases h : f a with _ | b <;> simp [List.filterMap_cons, h]

/-- `find?` after `updateFirst` with the same predicate: when the update
preserves the predicate, the first match is the updated element. -/
theorem find?_updateFirst (p : α → Bool) (f : α → α) (l : List α)
    (hf : ∀ a, p a = true → p (f a) = true) :
    (updateFirst p f l).find? p = (l.find? p).map f := by
  induction l with
  | nil => simp [updateFirst]
  | cons x xs ih =>
    by_cases hx : p x = true
    · simp [updateFirst, hx, List.find?_cons_of_pos _ (hf x hx), List.find?_cons_of_pos _ hx]
    · simp only [updateFirst, hx, if_false, Bool.false_eq_true,
        List.find?_cons_of_neg _ hx, ih]

/-- `updateFirst` leaves every element's image under `g` unchanged when the
update does not affect `g`. -/
theorem map_updateFirst (p : α → Bool) (f : α → α) (g : α → β) (l : List α)
    (hf : ∀ a, g (f a) = g a) :
    (updateFirst p f l).map g = l.map g := by
  induction l with
  | nil => rfl
  | cons x xs ih =>
    by_cases hx : p x = true
    · simp [updateFirst, hx, hf]
    · simp [updateFirst, hx, ih]

/-- `update_referral_earnings` touches only the `referrals` collection. -/
theorem update_referral_earnings_swaps (db : DB) (R E : String) (a : ℚ) (now : ℕ) :
    ((update_referral_earnings db R E a now).2).swaps = db.swaps := by
  unfold update_referral_earnings
  rcases db.referrals.find? (referralMatch R E) with _ | r
  · rfl
  · by_cases hc : r.capped = true <;> simp [hc]

/-- `update_referral_earnings` touches only the `referrals` collection. -/
theorem update_referral_earnings_users (db : DB) (R E : String) (a : ℚ) (now : ℕ) :
    ((update_referral_earnings db R E a now).2).users = db.users := by
  unfold update_referral_earnings
  rcases db.referrals.find? (referralMatch R E) with _ | r
  · rfl
  · by_cases hc : r.capped = true <;> simp [hc]

/-- `update_daily_volume` touches only `daily_volumes` and `users`. -/
theorem update_daily_volume_swaps (db : DB) (uid : String) (v : ℚ) (today : ℤ) :
    (update_daily_volume db uid v today).swaps = db.swaps := rfl

/-- Spelling out the pair returned by `recordSwapInsert`: the recorded swap
row, and the fact that the final state's swap list is the input list with
exactly that row appended. -/
theorem recordSwapInsert_spec (db : DB) (user : UserRow)
    (sig w it : String) (ia : ℚ) (ot : String) (oa v : ℚ) (now : ℕ) (today : ℤ) :
    (recordSwapInsert db user sig w it ia ot oa v now today).1 =
      .recorded (swapRowOf user sig w it ia ot oa v (referrerState db user).1
        (calculate_fee_split v (referrerState db user).1.isSome (referrerState db user).2) now) ∧
    ((recordSwapInsert db user sig w it ia ot oa v now today).2).swaps =
      db.swaps ++ [swapRowOf user sig w it ia ot oa v (referrerState db user).1
        (calculate_fee_split v (referrerState db user).1.isSome (referrerState db user).2) now] := by
  constructor
  · rfl
  · unfold recordSwapInsert
    rw [update_daily_volume_swaps]
    simp only
    rcases h : (referrerState db user).1 with _ | rid
    · simp [h]
    · simp only [h, Option.elim_some]
      by_cases hpos : 0 < (calculate_fee_split v (some rid).isSome (referrerState db user).2).referrer_amount
      · simp only [if_pos hpos, update_referral_earnings_swaps, h]
      · simp only [if_neg hpos, h]

/-- Crediting an already-capped referral is a `(False, unchanged)` no-op. -/
theorem update_referral_earnings_of_capped (db : DB) (R E : String) (r : ReferralRow)
    (a : ℚ) (now : ℕ)
    (hfind : db.referrals.find? (referralMatch R E) = some r)
    (hc : r.capped = true) :
    update_referral_earnings db R E a now = (false, db) := by
  unfold update_referral_earnings
  rw [hfind]
  simp [hc]

/-- Crediting a non-existent referral is a `(False, unchanged)` no-op. -/
theorem update_referral_earnings_of_none (db : DB) (R E : String) (a : ℚ) (now : ℕ)
    (hnone : db.referrals.find? (referralMatch R E) = none) :
    update_referral_earnings db R E a now = (false, db) := by
  unfold update_referral_earnings
  rw [hnone]
  rfl

/-! ### C3: referral cap clamp -/

/-- C3: a referral sitting at `cap - 1` credited with `10` is clamped to the
cap, marked capped with `capped_at = now`, and the credit returns `True`;
any later credit of that referral returns `False` leaving the state
unchanged, and a credit of a referral that does not exist returns `False`
leaving the state unchanged. -/
theorem C3_cap_clamp (db : DB) (R E : String) (r : ReferralRow) (now : ℕ)
    (amt : ℚ) (now2 : ℕ) (db2 : DB) (R2 E2 : String) (amt2 : ℚ) (now3 : ℕ)
    (hfind : db.referrals.find? (referralMatch R E) = some r)
    (hcap : r.cap = REFERRAL_CAP)
    (htot : r.total_earned = REFERRAL_CAP - 1)
    (hcapped : r.capped = false)
    (hnone : db2.referrals.find? (referralMatch R2 E2) = none) :
    (update_referral_earnings db R E 10 now).1 = true ∧
    ((update_referral_earnings db R E 10 now).2).referrals.find? (referralMatch R E) =
      some { r with total_earned := r.cap, capped := true, capped_at := some now } ∧
    update_referral_earnings (update_referral_earnings db R E 10 now).2 R E amt now2 =
      (false, (update_referral_earnings db R E 10 now).2) ∧
    update_referral_earnings db2 R2 E2 amt2 now3 = (false, db2) := by
  have hle : REFERRAL_CAP ≤ r.total_earned + 10 := by
    rw [htot]; linarith
  have hmin : min (r.total_earned + 10) REFERRAL_CAP = r.cap := by
    rw [htot, hcap, min_eq_right (by linarith : REFERRAL_CAP ≤ REFERRAL_CAP - 1 + 10)]
  have hres : update_referral_earnings db R E 10 now =
      (true,
        { db with
          referrals := updateFirst (referralMatch R E)
            (fun x =>
              { x with total_earned := r.cap, capped := true, capped_at := some now })
            db.referrals }) := by
    unfold update_referral_earnings
    rw [hfind]
    simp [hcapped, hle, hmin, hcap]
  have h2 : (update_referral_earnings db R E 10 now).2 =
      { db with
        referrals := updateFirst (referralMatch R E)
          (fun x =>
            { x with total_earned := r.cap, capped := true, capped_at := some now })
          db.referrals } := by
    rw [hres]
  have hfind' : ((update_referral_earnings db R E 10 now).2).referrals.find?
      (referralMatch R E) =
      some { r with total_earned := r.cap, capped := true, capped_at := some now } := by
    rw [h2]
    simp only
    rw [find?_updateFirst (referralMatch R E) _ _ (by intro a ha; simpa [referralMatch] using ha),
      hfind, Option.map_some']
  refine ⟨by rw [hres], hfind', ?_, ?_⟩
  · exact update_referral_earnings_of_capped _ _ _ _ amt now2 hfind' rfl
  · exact update_referral_earnings_of_none _ _ _ amt2 now3 hnone

/-- Witness for C3 at a concrete one-referral store. -/
theorem C3_cap_clamp_witness :
    (update_referral_earnings dbNearCap "R" "E" 10 5).1 = true ∧
    ((update_referral_earnings dbNearCap "R" "E" 10 5).2).referrals.find?
        (referralMatch "R" "E") =
      some { referralNearCap with
             total_earned := referralNearCap.cap, capped := true, capped_at := some 5 } ∧
    update_referral_earnings (update_referral_earnings dbNearCap "R" "E" 10 5).2 "R" "E" 7 6 =
      (false, (update_referral_earnings dbNearCap "R" "E" 10 5).2) ∧
    update_referral_earnings dbEmpty "X" "Y" 1 7 = (false, dbEmpty) :=
  C3_cap_clamp dbNearCap "R" "E" referralNearCap 5 7 6 dbEmpty "X" "Y" 1 7
    (by rfl)
    (by norm_num [referralNearCap, REFERRAL_CAP])
    (by norm_num [referralNearCap, REFERRAL_CAP])
    (by rfl)
    (by rfl)

/-! ### C7: unknown-wallet no-op -/

/-- C7: a `record_swap` call whose wallet resolves to no user (and whose
signature is not already recorded, so the earlier duplicate guard does not
fire first) returns the unknown-wallet no-op and leaves the whole store
untouched. -/
theorem C7_unknown_wallet_noop (db : DB) (sig w it : String) (ia : ℚ) (ot : String)
    (oa v : ℚ) (now : ℕ) (today : ℤ)
    (hdup : db.swaps.any (fun s => s.tx_signature == sig) = false)
    (huser : db.users.find? (fun u => u.wallet_address == some w) = none) :
    record_swap db sig w it ia ot oa v now today = (.unknownWallet, db) := by
  unfold record_swap
  rw [hdup, huser]
  simp

/-- Witness for C7 at the empty store. -/
theorem C7_unknown_wallet_noop_witness :
    record_swap dbEmpty "sig" "w" "SOL" 1 "USDC" 150 100 3 20000 = (.unknownWallet, dbEmpty) :=
  C7_unknown_wallet_noop dbEmpty "sig" "w" "SOL" 1 "USDC" 150 100 3 20000 (by rfl) (by rfl)

/-! ### C6: duplicate-signature idempotency -/

/-- C6: once a `record_swap` call has successfully recorded a swap under a
signature, the store holds exactly one swap row with that signature, and any
second `record_swap` call with the same signature (whatever its other
arguments) returns the duplicate no-op and leaves the store exactly as it
was. -/
theorem C6_duplicate_idempotent (db : DB) (sig w it : String) (ia : ℚ) (ot : String)
    (oa v : ℚ) (now : ℕ) (today : ℤ) (sw : SwapRow) (db1 : DB)
    (w2 it2 : String) (ia2 : ℚ) (ot2 : String) (oa2 v2 : ℚ) (now2 : ℕ) (today2 : ℤ)
    (h : record_swap db sig w it ia ot oa v now today = (.recorded sw, db1)) :
    record_swap db1 sig w2 it2 ia2 ot2 oa2 v2 now2 today2 = (.duplicate, db1) ∧
    (db1.swaps.filter (fun s => s.tx_signature == sig)).length = 1 := by
  unfold record_swap at h
  rcases hA : db.swaps.any (fun s => s.tx_signature == sig) with _ | _
  swap
  · rw [hA] at h
    simp at h
  rw [hA] at h
  simp only [Bool.false_eq_true, if_false] at h
  rcases hU : db.users.find? (fun u => u.wallet_address == some w) with _ | user
  · rw [hU] at h
    simp at h
  rw [hU] at h
  simp only [Option.elim_some] at h
  obtain ⟨hfst, hsw⟩ := recordSwapInsert_spec db user sig w it ia ot oa v now today
  have hdb1 : (recordSwapInsert db user sig w it ia ot oa v now today).2 = db1 := by
    rw [h]
  have hswaps : db1.swaps =
      db.swaps ++ [swapRowOf user sig w it ia ot oa v (referrerState db user).1
        (calculate_fee_split v (referrerState db user).1.isSome (referrerState db user).2) now] := by
    rw [← hdb1, hsw]
  have hfail : ∀ s, s ∈ db.swaps → ¬ (s.tx_signature == sig) = true :=
    List.any_eq_false.mp hA
  constructor
  · unfold record_swap
    have hany : db1.swaps.any (fun s => s.tx_signature == sig) = true := by
      rw [hswaps]
      simp [swapRowOf]
    rw [hany]
    simp
  · rw [hswaps, List.filter_append]
    have h0 : db.swaps.filter (fun s => s.tx_signature == sig) = [] :=
      List.filter_eq_nil_iff.mpr hfail
    rw [h0]
    simp [swapRowOf]

/-- Witness for C6: record a swap into `dbOneUser`, then replay it. -/
theorem C6_duplicate_idempotent_witness :
    record_swap (record_swap dbOneUser "sig" "w" "SOL" 1 "USDC" 150 1000 3 20000).2
        "sig" "w" "SOL" 1 "USDC" 150 1000 4 20000 =
      (.duplicate, (record_swap dbOneUser "sig" "w" "SOL" 1 "USDC" 150 1000 3 20000).2) ∧
    ((record_swap dbOneUser "sig" "w" "SOL" 1 "USDC" 150 1000 3 20000).2.swaps.filter
      (fun s => s.tx_signature == "sig")).length = 1 :=
  C6_duplicate_idempotent dbOneUser "sig" "w" "SOL" 1 "USDC" 150 1000 3 20000 _ _
    "w" "SOL" 1 "USDC" 150 1000 4 20000 (by rfl)

/-! ### C8: rolling 30-day volume -/

/-- Incrementing the first matching daily-volume row adds `v` to the stored
total for that user and day. -/
theorem dvTotal_updateFirst_inc (uid : String) (d : ℤ) (v : ℚ) (dvs : List DailyVolumeRow)
    (hA : dvs.any (dailyVolumeMatch uid d) = true) :
    dvTotal (updateFirst (dailyVolumeMatch uid d)
      (fun r => { r with volume_usd := r.volume_usd + v }) dvs) uid d =
    dvTotal dvs uid d + v := by
  induction dvs with
  | nil => simp at hA
  | cons x xs ih =>
    by_cases hx : dailyVolumeMatch uid d x = true
    · have hx' : dailyVolumeMatch uid d { x with volume_usd := x.volume_usd + v } = true := by
        simpa [dailyVolumeMatch] using hx
      simp only [updateFirst, hx, if_true, dvTotal, List.filter_cons, hx', List.map_cons,
        List.sum_cons]
      ring
    · have hxs : xs.any (dailyVolumeMatch uid d) = true := by
        rcases List.any_eq_true.mp hA with ⟨y, hy, hpy⟩
        rcases List.mem_cons.mp hy with rfl | hmem
        · exact absurd hpy hx
        · exact List.any_eq_true.mpr ⟨y, hmem, hpy⟩
      have hrec := ih hxs
      simp only [dvTotal, List.filter_cons] at hrec ⊢
      simp only [updateFirst, hx, Bool.false_eq_true, if_false]
      simpa [List.filter_cons, hx] using hrec

/-- The daily-volume upsert adds `v` to the stored total of `(uid, today)`,
creating the row when absent. -/
theorem dvTotal_newDailyVolumes (dvs : List DailyVolumeRow) (uid : String) (v : ℚ) (today : ℤ) :
    dvTotal (newDailyVolumes dvs uid v today) uid today = dvTotal dvs uid today + v := by
  unfold newDailyVolumes
  by_cases hA : dvs.any (dailyVolumeMatch uid today) = true
  · rw [if_pos hA]
    exact dvTotal_updateFirst_inc uid today v dvs hA
  · rw [if_neg hA]
    simp [dvTotal, List.filter_append, List.filter_cons, dailyVolumeMatch]

/-- C8: `update_daily_volume` adds `v` to the `(user, today)` daily-volume
row (creating it if absent) and overwrites the user's `volume_30d` with the
recomputed sum over days `>= today - 30`; concretely, volumes 10, 20, 30 on
three consecutive days leave `volume_30d = 60`, and a day 31 days old is
excluded from the recomputed sum. -/
theorem C8_rolling_volume (db : DB) (uid : String) (v : ℚ) (today : ℤ) :
    dvTotal (update_daily_volume db uid v today).daily_volumes uid today =
      dvTotal db.daily_volumes uid today + v ∧
    (update_daily_volume db uid v today).users.find? (fun u => u.privy_id == uid) =
      (db.users.find? (fun u => u.privy_id == uid)).map
        (fun u => { u with
                    volume_30d :=
                      volume30dSum (update_daily_volume db uid v today).daily_volumes
                        uid today }) ∧
    ((update_daily_volume (update_daily_volume (update_daily_volume dbOneUser "U" 10 50)
        "U" 20 51) "U" 30 52).users.find? (fun u => u.privy_id == "U")).map
        (fun u => u.volume_30d) = some 60 ∧
    ((update_daily_volume dbStaleVolume "U" 20 31).users.find? (fun u => u.privy_id == "U")).map
        (fun u => u.volume_30d) = some 20 := by
  refine ⟨?_, ?_, ?_, ?_⟩
  · exact dvTotal_newDailyVolumes db.daily_volumes uid v today
  · have husers : (update_daily_volume db uid v today).users =
        updateFirst (fun u => u.privy_id == uid)
          (fun u => { u with
                      volume_30d :=
                        volume30dSum (newDailyVolumes db.daily_volumes uid v today)
                          uid today })
          db.users := rfl
    rw [husers, find?_updateFirst _ _ _ (by intro a ha; simpa using ha)]
    rfl
  · norm_num [update_daily_volume, newDailyVolumes, updateFirst, volume30dSum,
      dailyVolumeMatch, dbOneUser, List.filter_cons, dvTotal]
  · norm_num [update_daily_volume, newDailyVolumes, updateFirst, volume30dSum,
      dailyVolumeMatch, dbStaleVolume, List.filter_cons]

/-! ### C4 and C5: pending payouts -/

/-- When the duplicate guard passes and the wallet resolves, `record_swap`
is the insertion phase. -/
theorem record_swap_guards (db : DB) (sig w it : String) (ia : ℚ) (ot : String) (oa v : ℚ)
    (now : ℕ) (today : ℤ) (user : UserRow)
    (h1 : db.swaps.any (fun s => s.tx_signature == sig) = false)
    (h2 : db.users.find? (fun u => u.wallet_address == some w) = some user) :
    record_swap db sig w it ia ot oa v now today =
      recordSwapInsert db user sig w it ia ot oa v now today := by
  unfold record_swap
  rw [h1, h2]
  simp

/-- Evaluation of the insertion phase when an active uncapped referrer is
found and the computed referrer share is positive: insert the row, credit
the referral, stamp `last_trade_at`, update the daily volume. -/
theorem recordSwapInsert_eval_credit (db : DB) (user : UserRow) (sig w it : String)
    (ia : ℚ) (ot : String) (oa v : ℚ) (now : ℕ) (today : ℤ) (rid : String) (fee : FeeSplit)
    (hrs : referrerState db user = (some rid, false))
    (hfee : calculate_fee_split v true false = fee)
    (hpos : 0 < fee.referrer_amount) :
    recordSwapInsert db user sig w it ia ot oa v now today =
      (.recorded (swapRowOf user sig w it ia ot oa v (some rid) fee now),
        update_daily_volume
          { (update_referral_earnings
              { db with
                swaps := db.swaps ++ [swapRowOf user sig w it ia ot oa v (some rid) fee now] }
              rid user.privy_id fee.referrer_amount now).2 with
            users := updateFirst (fun u => u.privy_id == user.privy_id)
              (fun u => { u with last_trade_at := some now })
              ((update_referral_earnings
                { db with
                  swaps := db.swaps ++ [swapRowOf user sig w it ia ot oa v (some rid) fee now] }
                rid user.privy_id fee.referrer_amount now).2).users }
          user.privy_id v today) := by
  unfold recordSwapInsert
  rw [hrs]
  simp only [Option.isSome_some, Option.elim_some]
  rw [hfee, if_pos hpos]

/-- Evaluation of the insertion phase when an active uncapped referrer is
found but the computed referrer share is not positive: insert the row
without crediting, stamp `last_trade_at`, update the daily volume. -/
theorem recordSwapInsert_eval_nocredit (db : DB) (user : UserRow) (sig w it : String)
    (ia : ℚ) (ot : String) (oa v : ℚ) (now : ℕ) (today : ℤ) (rid : String) (fee : FeeSplit)
    (hrs : referrerState db user = (some rid, false))
    (hfee : calculate_fee_split v true false = fee)
    (hneg : ¬ 0 < fee.referrer_amount) :
    recordSwapInsert db user sig w it ia ot oa v now today =
      (.recorded (swapRowOf user sig w it ia ot oa v (some rid) fee now),
        update_daily_volume
          { db with
            swaps := db.swaps ++ [swapRowOf user sig w it ia ot oa v (some rid) fee now]
            users := updateFirst (fun u => u.privy_id == user.privy_id)
              (fun u => { u with last_trade_at := some now }) db.users }
          user.privy_id v today) := by
  unfold recordSwapInsert
  rw [hrs]
  simp only [Option.isSome_some, Option.elim_some]
  rw [hfee, if_neg hneg]

/-- Evaluation of the C4 scenario's first `record_swap` call. -/
theorem dbC4_step1 :
    (record_swap dbReferred "s1" "wU" "SOL" 1 "USDC" 1 5000 10 100).2 = dbC4mid := by
  rw [record_swap_guards dbReferred "s1" "wU" "SOL" 1 "USDC" 1 5000 10 100 userU
        (by rfl) (by rfl),
      recordSwapInsert_eval_credit dbReferred userU "s1" "wU" "SOL" 1 "USDC" 1 5000 10 100
        "R" { gross_fee := 25, jupiter_amount := 5, platform_amount := 11,
              referrer_amount := 5 }
        (by rfl) (by norm_num [calculate_fee_split, PLATFORM_FEE, JUPITER_SPLIT, PLATFORM_SPLIT, REFERRER_SPLIT]) (by norm_num)]
  repeat
    first
    | decide
    | norm_num [dbReferred, userR, userU, referralRU, userUmidC4, userUmidC5, dbC4mid, dbC4lit,
        dbC5mid, dbC5lit, swapRowOf, update_referral_earnings, referralMatch, updateFirst,
        update_daily_volume, newDailyVolumes, volume30dSum, dailyVolumeMatch, REFERRAL_CAP,
        get_pending_payouts, pendingReferrerIds, positiveReferrerSum, paidSum,
        claimWordedPending, List.filter_cons, List.filter_append, filterMap_cons_elim,
        min_def, List.dedup_cons_of_not_mem, List.dedup_nil]
    | simp [dbReferred, userR, userU, referralRU, userUmidC4, userUmidC5, dbC4mid, dbC4lit,
        dbC5mid, dbC5lit, swapRowOf, update_referral_earnings, referralMatch, updateFirst,
        update_daily_volume, newDailyVolumes, volume30dSum, dailyVolumeMatch, REFERRAL_CAP,
        get_pending_payouts, pendingReferrerIds, positiveReferrerSum, paidSum,
        claimWordedPending, List.filter_cons, List.filter_append, filterMap_cons_elim,
        min_def, List.dedup_cons_of_not_mem, List.dedup_nil]

/-- Evaluation of the C4 scenario: the two recorded swaps produce `dbC4lit`. -/
theorem dbC4_eval : dbC4 = dbC4lit := by
  unfold dbC4
  rw [dbC4_step1,
      record_swap_guards dbC4mid "s2" "wU" "SOL" 1 "USDC" 1 (-3000) 11 100 userUmidC4
        (by rfl) (by rfl),
      recordSwapInsert_eval_nocredit dbC4mid userUmidC4 "s2" "wU" "SOL" 1 "USDC" 1 (-3000)
        11 100 "R" { gross_fee := -15, jupiter_amount := -3, platform_amount := -33/5,
                     referrer_amount := -3 }
        (by rfl) (by norm_num [calculate_fee_split, PLATFORM_FEE, JUPITER_SPLIT, PLATFORM_SPLIT, REFERRER_SPLIT]) (by norm_num)]
  repeat
    first
    | decide
    | norm_num [dbReferred, userR, userU, referralRU, userUmidC4, userUmidC5, dbC4mid, dbC4lit,
        dbC5mid, dbC5lit, swapRowOf, update_referral_earnings, referralMatch, updateFirst,
        update_daily_volume, newDailyVolumes, volume30dSum, dailyVolumeMatch, REFERRAL_CAP,
        get_pending_payouts, pendingReferrerIds, positiveReferrerSum, paidSum,
        claimWordedPending, List.filter_cons, List.filter_append, filterMap_cons_elim,
        min_def, List.dedup_cons_of_not_mem, List.dedup_nil]
    | simp [dbReferred, userR, userU, referralRU, userUmidC4, userUmidC5, dbC4mid, dbC4lit,
        dbC5mid, dbC5lit, swapRowOf, update_referral_earnings, referralMatch, updateFirst,
        update_daily_volume, newDailyVolumes, volume30dSum, dailyVolumeMatch, REFERRAL_CAP,
        get_pending_payouts, pendingReferrerIds, positiveReferrerSum, paidSum,
        claimWordedPending, List.filter_cons, List.filter_append, filterMap_cons_elim,
        min_def, List.dedup_cons_of_not_mem, List.dedup_nil]

/-- C4: the claim as stated is false: `get_pending_payouts` sums only the
swap rows with `referrer_amount > 0`, not all rows of the referrer.  In the
reachable store `dbC4` (a $5000 swap then a $-3000 reversal recorded for a
referred user) the code returns a pending amount of $5, while the claimed
formula — the sum over all rows minus sent payouts — gives $2. -/
theorem C4_pending_counterexample :
    get_pending_payouts dbC4 =
      [{ privy_id := "R", wallet_address := some "wR", pending_amount := 5 }] ∧
    claimWordedPending dbC4 "R" = 2 ∧
    (5 : ℚ) ≠ 2 := by
  rw [dbC4_eval]
  refine ⟨?_, ?_, by norm_num⟩ <;>
  simp only [dbReferred, userR, userU, referralRU, dbC4mid, dbC4lit, dbC5mid, dbC5lit,
        record_swap, recordSwapInsert, referrerState, swapRowOf, calculate_fee_split,
        PLATFORM_FEE, JUPITER_SPLIT, PLATFORM_SPLIT, REFERRER_SPLIT, REFERRAL_CAP,
        update_referral_earnings, referralMatch, updateFirst, update_daily_volume,
        newDailyVolumes, volume30dSum, dailyVolumeMatch, get_pending_payouts,
        pendingReferrerIds, positiveReferrerSum, paidSum, claimWordedPending,
        List.filter_cons, List.filter_append, filterMap_cons_elim, min_def,
        List.dedup_cons_of_not_mem, List.dedup_nil]
  repeat
    first
    | decide
    | norm_num [dbReferred, userR, userU, referralRU, dbC4mid, dbC4lit, dbC5mid, dbC5lit,
        record_swap, recordSwapInsert, referrerState, swapRowOf, calculate_fee_split,
        PLATFORM_FEE, JUPITER_SPLIT, PLATFORM_SPLIT, REFERRER_SPLIT, REFERRAL_CAP,
        update_referral_earnings, referralMatch, updateFirst, update_daily_volume,
        newDailyVolumes, volume30dSum, dailyVolumeMatch, get_pending_payouts,
        pendingReferrerIds, positiveReferrerSum, paidSum, claimWordedPending,
        List.filter_cons, List.filter_append, filterMap_cons_elim, min_def,
        List.dedup_cons_of_not_mem, List.dedup_nil]
    | simp [dbReferred, userR, userU, referralRU, dbC4mid, dbC4lit, dbC5mid, dbC5lit,
        record_swap, recordSwapInsert, referrerState, swapRowOf, calculate_fee_split,
        PLATFORM_FEE, JUPITER_SPLIT, PLATFORM_SPLIT, REFERRER_SPLIT, REFERRAL_CAP,
        update_referral_earnings, referralMatch, updateFirst, update_daily_volume,
        newDailyVolumes, volume30dSum, dailyVolumeMatch, get_pending_payouts,
        pendingReferrerIds, positiveReferrerSum, paidSum, claimWordedPending,
        List.filter_cons, List.filter_append, filterMap_cons_elim, min_def,
        List.dedup_cons_of_not_mem, List.dedup_nil]

/-- C4 (amended): every entry returned by `get_pending_payouts` carries
`pending = (sum of referrer_amount over the referrer's swap rows with
referrer_amount > 0) - (sum of sent payouts)`, and that amount is strictly
positive — the swap sum is over the positive rows only, not all rows. -/
theorem C4_amended_pending_formula (db : DB) (e : PendingPayout)
    (he : e ∈ get_pending_payouts db) :
    e.pending_amount = positiveReferrerSum db e.privy_id - paidSum db e.privy_id ∧
    0 < e.pending_amount := by
  unfold get_pending_payouts at he
  obtain ⟨rid, hmem, hf⟩ := List.mem_filterMap.mp he
  by_cases hp : 0 < positiveReferrerSum db rid - paidSum db rid
  · rw [if_pos hp] at hf
    obtain ⟨u, hu, hg⟩ := Option.map_eq_some'.mp hf
    constructor
    · rw [← hg]
    · rw [← hg]
      exact hp
  · rw [if_neg hp] at hf
    exact absurd hf (by simp)

/-- Witness for the amended C4 at the concrete store `dbC4`. -/
theorem C4_amended_pending_formula_witness :
    (5 : ℚ) = positiveReferrerSum dbC4 "R" - paidSum dbC4 "R" ∧ (0 : ℚ) < 5 :=
  C4_amended_pending_formula dbC4 { privy_id := "R", wallet_address := some "wR",
                                    pending_amount := 5 }
    (by rw [dbC4_eval]
        simp only [dbReferred, userR, userU, referralRU, dbC4mid, dbC4lit, dbC5mid, dbC5lit,
        record_swap, recordSwapInsert, referrerState, swapRowOf, calculate_fee_split,
        PLATFORM_FEE, JUPITER_SPLIT, PLATFORM_SPLIT, REFERRER_SPLIT, REFERRAL_CAP,
        update_referral_earnings, referralMatch, updateFirst, update_daily_volume,
        newDailyVolumes, volume30dSum, dailyVolumeMatch, get_pending_payouts,
        pendingReferrerIds, positiveReferrerSum, paidSum, claimWordedPending,
        List.filter_cons, List.filter_append, filterMap_cons_elim, min_def,
        List.dedup_cons_of_not_mem, List.dedup_nil]
        repeat
          first
          | decide
          | norm_num [dbReferred, userR, userU, referralRU, dbC4mid, dbC4lit, dbC5mid, dbC5lit,
        record_swap, recordSwapInsert, referrerState, swapRowOf, calculate_fee_split,
        PLATFORM_FEE, JUPITER_SPLIT, PLATFORM_SPLIT, REFERRER_SPLIT, REFERRAL_CAP,
        update_referral_earnings, referralMatch, updateFirst, update_daily_volume,
        newDailyVolumes, volume30dSum, dailyVolumeMatch, get_pending_payouts,
        pendingReferrerIds, positiveReferrerSum, paidSum, claimWordedPending,
        List.filter_cons, List.filter_append, filterMap_cons_elim, min_def,
        List.dedup_cons_of_not_mem, List.dedup_nil]
          | simp [dbReferred, userR, userU, referralRU, dbC4mid, dbC4lit, dbC5mid, dbC5lit,
        record_swap, recordSwapInsert, referrerState, swapRowOf, calculate_fee_split,
        PLATFORM_FEE, JUPITER_SPLIT, PLATFORM_SPLIT, REFERRER_SPLIT, REFERRAL_CAP,
        update_referral_earnings, referralMatch, updateFirst, update_daily_volume,
        newDailyVolumes, volume30dSum, dailyVolumeMatch, get_pending_payouts,
        pendingReferrerIds, positiveReferrerSum, paidSum, claimWordedPending,
        List.filter_cons, List.filter_append, filterMap_cons_elim, min_def,
        List.dedup_cons_of_not_mem, List.dedup_nil])

/-- Evaluation of the C5 scenario's first `record_swap` call. -/
theorem dbC5_step1 :
    (record_swap dbReferred "t1" "wU" "SOL" 1 "USDC" 1 200000 10 100).2 = dbC5mid := by
  rw [record_swap_guards dbReferred "t1" "wU" "SOL" 1 "USDC" 1 200000 10 100 userU
        (by rfl) (by rfl),
      recordSwapInsert_eval_credit dbReferred userU "t1" "wU" "SOL" 1 "USDC" 1 200000 10 100
        "R" { gross_fee := 1000, jupiter_amount := 200, platform_amount := 440,
              referrer_amount := 200 }
        (by rfl) (by norm_num [calculate_fee_split, PLATFORM_FEE, JUPITER_SPLIT, PLATFORM_SPLIT, REFERRER_SPLIT]) (by norm_num)]
  repeat
    first
    | decide
    | norm_num [dbReferred, userR, userU, referralRU, userUmidC4, userUmidC5, dbC4mid, dbC4lit,
        dbC5mid, dbC5lit, swapRowOf, update_referral_earnings, referralMatch, updateFirst,
        update_daily_volume, newDailyVolumes, volume30dSum, dailyVolumeMatch, REFERRAL_CAP,
        get_pending_payouts, pendingReferrerIds, positiveReferrerSum, paidSum,
        claimWordedPending, List.filter_cons, List.filter_append, filterMap_cons_elim,
        min_def, List.dedup_cons_of_not_mem, List.dedup_nil]
    | simp [dbReferred, userR, userU, referralRU, userUmidC4, userUmidC5, dbC4mid, dbC4lit,
        dbC5mid, dbC5lit, swapRowOf, update_referral_earnings, referralMatch, updateFirst,
        update_daily_volume, newDailyVolumes, volume30dSum, dailyVolumeMatch, REFERRAL_CAP,
        get_pending_payouts, pendingReferrerIds, positiveReferrerSum, paidSum,
        claimWordedPending, List.filter_cons, List.filter_append, filterMap_cons_elim,
        min_def, List.dedup_cons_of_not_mem, List.dedup_nil]

/-- Evaluation of the C5 scenario: the two recorded swaps produce `dbC5lit`,
whose referral row is clamped at the cap. -/
theorem dbC5_eval : dbC5 = dbC5lit := by
  unfold dbC5
  rw [dbC5_step1,
      record_swap_guards dbC5mid "t2" "wU" "SOL" 1 "USDC" 1 200000 11 100 userUmidC5
        (by rfl) (by rfl),
      recordSwapInsert_eval_credit dbC5mid userUmidC5 "t2" "wU" "SOL" 1 "USDC" 1 200000
        11 100 "R" { gross_fee := 1000, jupiter_amount := 200, platform_amount := 440,
                     referrer_amount := 200 }
        (by rfl) (by norm_num [calculate_fee_split, PLATFORM_FEE, JUPITER_SPLIT, PLATFORM_SPLIT, REFERRER_SPLIT]) (by norm_num)]
  repeat
    first
    | decide
    | norm_num [dbReferred, userR, userU, referralRU, userUmidC4, userUmidC5, dbC4mid, dbC4lit,
        dbC5mid, dbC5lit, swapRowOf, update_referral_earnings, referralMatch, updateFirst,
        update_daily_volume, newDailyVolumes, volume30dSum, dailyVolumeMatch, REFERRAL_CAP,
        get_pending_payouts, pendingReferrerIds, positiveReferrerSum, paidSum,
        claimWordedPending, List.filter_cons, List.filter_append, filterMap_cons_elim,
        min_def, List.dedup_cons_of_not_mem, List.dedup_nil]
    | simp [dbReferred, userR, userU, referralRU, userUmidC4, userUmidC5, dbC4mid, dbC4lit,
        dbC5mid, dbC5lit, swapRowOf, update_referral_earnings, referralMatch, updateFirst,
        update_daily_volume, newDailyVolumes, volume30dSum, dailyVolumeMatch, REFERRAL_CAP,
        get_pending_payouts, pendingReferrerIds, positiveReferrerSum, paidSum,
        claimWordedPending, List.filter_cons, List.filter_append, filterMap_cons_elim,
        min_def, List.dedup_cons_of_not_mem, List.dedup_nil]

/-- C5: across the cap boundary the swap rows keep their pre-clamp
`referrer_amount` while only the referral's `total_earned` is clamped: after
two $200000 swaps the rows sum to $400, the referral sits clamped at $300
(capped), and `get_pending_payouts` reports $400 — strictly above both the
cap and the clamped `total_earned`. -/
theorem C5_pending_unbounded_by_cap :
    ((dbC5.swaps.filter (fun s => s.referrer_privy_id == some "R")).map
      (fun s => s.referrer_amount)).sum = 400 ∧
    dbC5.referrals.find? (referralMatch "R" "U") =
      some { referrer_privy_id := "R", referee_privy_id := "U", total_earned := 300,
             cap := 300, capped := true, capped_at := some 11 } ∧
    get_pending_payouts dbC5 =
      [{ privy_id := "R", wallet_address := some "wR", pending_amount := 400 }] ∧
    REFERRAL_CAP < 400 ∧ (300 : ℚ) < 400 := by
  rw [dbC5_eval]
  refine ⟨?_, ?_, ?_, by norm_num [REFERRAL_CAP], by norm_num⟩ <;>
  simp only [dbReferred, userR, userU, referralRU, dbC4mid, dbC4lit, dbC5mid, dbC5lit,
        record_swap, recordSwapInsert, referrerState, swapRowOf, calculate_fee_split,
        PLATFORM_FEE, JUPITER_SPLIT, PLATFORM_SPLIT, REFERRER_SPLIT, REFERRAL_CAP,
        update_referral_earnings, referralMatch, updateFirst, update_daily_volume,
        newDailyVolumes, volume30dSum, dailyVolumeMatch, get_pending_payouts,
        pendingReferrerIds, positiveReferrerSum, paidSum, claimWordedPending,
        List.filter_cons, List.filter_append, filterMap_cons_elim, min_def,
        List.dedup_cons_of_not_mem, List.dedup_nil]
  repeat
    first
    | decide
    | norm_num [dbReferred, userR, userU, referralRU, dbC4mid, dbC4lit, dbC5mid, dbC5lit,
        record_swap, recordSwapInsert, referrerState, swapRowOf, calculate_fee_split,
        PLATFORM_FEE, JUPITER_SPLIT, PLATFORM_SPLIT, REFERRER_SPLIT, REFERRAL_CAP,
        update_referral_earnings, referralMatch, updateFirst, update_daily_volume,
        newDailyVolumes, volume30dSum, dailyVolumeMatch, get_pending_payouts,
        pendingReferrerIds, positiveReferrerSum, paidSum, claimWordedPending,
        List.filter_cons, List.filter_append, filterMap_cons_elim, min_def,
        List.dedup_cons_of_not_mem, List.dedup_nil]
    | simp [dbReferred, userR, userU, referralRU, dbC4mid, dbC4lit, dbC5mid, dbC5lit,
        record_swap, recordSwapInsert, referrerState, swapRowOf, calculate_fee_split,
        PLATFORM_FEE, JUPITER_SPLIT, PLATFORM_SPLIT, REFERRER_SPLIT, REFERRAL_CAP,
        update_referral_earnings, referralMatch, updateFirst, update_daily_volume,
        newDailyVolumes, volume30dSum, dailyVolumeMatch, get_pending_payouts,
        pendingReferrerIds, positiveReferrerSum, paidSum, claimWordedPending,
        List.filter_cons, List.filter_append, filterMap_cons_elim, min_def,
        List.dedup_cons_of_not_mem, List.dedup_nil]

/-! ### C9: anchor discriminators -/

set_option maxRecDepth 100000 in
/-- C9: for every instruction name `X` the discriminator is the first 8
bytes of SHA-256 of `"global:" + X`; the `claim` and `claim_v2`
discriminators are fixed 8-byte constants (computed here through the full
SHA-256 implementation, matching the bytes of the reference derivation) and
differ from each other. -/
theorem C9_discriminators (X : String) :
    get_anchor_discriminator X = (sha256 (asciiBytes ("global:" ++ X))).take 8 ∧
    CLAIM_DISCRIMINATOR = [62, 198, 214, 193, 213, 159, 108, 210] ∧
    CLAIM_V2_DISCRIMINATOR = [229, 87, 46, 162, 21, 157, 231, 114] ∧
    CLAIM_DISCRIMINATOR.length = 8 ∧
    CLAIM_V2_DISCRIMINATOR.length = 8 ∧
    CLAIM_DISCRIMINATOR ≠ CLAIM_V2_DISCRIMINATOR := by
  refine ⟨rfl, ?_, ?_, ?_, ?_, ?_⟩ <;> decide

/-! ### C10: token price fetch and cache -/

/-- C10: `get_token_price` returns `None` whenever the fetch fails, times
out or yields no value and no cache entry younger than the TTL exists (in
particular it never falls back to a stale or zero price); and within
`CACHE_TTL_SECONDS` of a successful fetch a second call for the same mint
returns the cached price without performing a new fetch. -/
theorem C10_price_unavailable_and_cached
    (cA : PriceCache) (nowA : ℚ) (fetchA : Option ℚ) (mintA : String)
    (c : PriceCache) (now now2 : ℚ) (fetch fetch2 : Option ℚ) (mint : String) (p : ℚ)
    (hA : fetchA = none)
    (hAfresh : freshCached cA nowA mintA = none)
    (hm1 : (mint == "") = false) (hm2 : (mint == "unknown") = false)
    (hfetch : fetch = some p)
    (hfresh : freshCached c now mint = none)
    (httl : now2 - now < CACHE_TTL_SECONDS) :
    (get_token_price cA nowA fetchA mintA).price = none ∧
    get_token_price (get_token_price c now fetch mint).cache now2 fetch2 mint =
      { price := some p, fetched := false, cache := (get_token_price c now fetch mint).cache } := by
  constructor
  · subst hA
    unfold get_token_price
    by_cases hm : (mintA == "" || mintA == "unknown") = true
    · rw [if_pos hm]
    · rw [if_neg hm]
      rcases hc : cacheLookup cA mintA with _ | e
      · simp [fetchPrice]
      · unfold freshCached at hAfresh
        rw [hc] at hAfresh
        simp only [Option.elim_some] at hAfresh ⊢
        by_cases ht : nowA - e.2 < CACHE_TTL_SECONDS
        · rw [if_pos ht] at hAfresh
          simp at hAfresh
        · rw [if_neg ht]
          simp [fetchPrice]
  · have h1 : get_token_price c now fetch mint =
        { price := some p, fetched := true, cache := (mint, p, now) :: c } := by
      subst hfetch
      unfold get_token_price
      rw [show (mint == "" || mint == "unknown") = false by rw [hm1, hm2]; rfl]
      simp only [Bool.false_eq_true, if_false]
      rcases hc : cacheLookup c mint with _ | e
      · simp [fetchPrice]
      · unfold freshCached at hfresh
        rw [hc] at hfresh
        simp only [Option.elim_some] at hfresh ⊢
        by_cases ht : now - e.2 < CACHE_TTL_SECONDS
        · rw [if_pos ht] at hfresh
          simp at hfresh
        · rw [if_neg ht]
          simp [fetchPrice]
    rw [h1]
    unfold get_token_price
    rw [show (mint == "" || mint == "unknown") = false by rw [hm1, hm2]; rfl]
    simp only [Bool.false_eq_true, if_false]
    have hc2 : cacheLookup ((mint, p, now) :: c) mint = some (p, now) := by
      simp [cacheLookup]
    rw [hc2]
    simp only [Option.elim_some]
    rw [if_pos httl]

/-- Witness for C10: empty cache, a failing fetch for one mint, then a
successful $150 fetch re-read 30 seconds later without a new fetch. -/
theorem C10_price_unavailable_and_cached_witness :
    (get_token_price [] 0 none "So11111111111111111111111111111111111111112").price = none ∧
    get_token_price
        (get_token_price [] 0 (some 150) "So11111111111111111111111111111111111111112").cache
        30 none "So11111111111111111111111111111111111111112" =
      { price := some 150, fetched := false,
        cache := (get_token_price [] 0 (some 150)
          "So11111111111111111111111111111111111111112").cache } :=
  C10_price_unavailable_and_cached [] 0 none "So11111111111111111111111111111111111111112"
    [] 0 30 (some 150) none "So11111111111111111111111111111111111111112" 150
    rfl rfl rfl rfl rfl rfl (by norm_num [CACHE_TTL_SECONDS])

end SolanaAgentBot
